import Mathlib

/-!
Verification development for `src/huggingface_endpoint.py`, a single-file
adapter (`HuggingFaceEndpoint`) around a HuggingFace inference endpoint.

The Python file is shallowly embedded below:
* JSON values (what `response.json()` yields and what `model_kwargs` holds)
  become the inductive `Json`; Python dicts become association lists with
  Python's lookup/update semantics.
* The HTTP transport is an oracle `post : Nat -> Json -> HttpOutcome`: the
  first argument is the attempt number (the source performs exactly one
  `requests.post`, so only attempt `0` is ever consulted) and the second is
  the posted JSON body.  `HttpOutcome.transportError e` stands for
  `requests.exceptions.RequestException` with message `e`;
  `HttpOutcome.response body` stands for a response whose `.json()` decodes
  to `body`.  (A response whose body fails to decode as JSON is not modelled;
  no claim depends on it.)
* Every `raise` in the source becomes an `Except.error` carrying a `PyError`
  value that records the Python exception class and message.
-/

namespace HFEndpoint

/-- JSON values, the shape of `response.json()` results, of `model_kwargs`
values and of per-call keyword arguments.  Numbers are modelled as integers
(no claim involves non-integral numbers). -/
inductive Json where
  | null
  | bool (b : Bool)
  | num (n : Int)
  | str (s : String)
  | arr (xs : List Json)
  | obj (kvs : List (String × Json))

/-- Whether a JSON value is an object (a Python mapping). -/
def Json.isObj : Json → Bool
  | .obj _ => true
  | _ => false

/-- Python dict lookup `d[k]` restricted to association lists: the value of
the first pair whose key equals `k` (Python dicts have unique keys, so for
faithfully built dicts this is the unique binding). -/
def lookupKvs (kvs : List (String × Json)) (k : String) : Option Json :=
  (kvs.find? (fun p => p.1 == k)).map Prod.snd

/-- Python dict assignment `d[k] = v` on an association list with unique
keys: replace the binding in place if the key is present (keeping its
position, as Python dicts do), otherwise append the new binding at the end
(Python insertion order). -/
def dictInsert : List (String × Json) → String → Json → List (String × Json)
  | [], k, v => [(k, v)]
  | p :: rest, k, v => if p.1 == k then (k, v) :: rest else p :: dictInsert rest k v

/-- Python dict merge `\x7b**a, **b\x7d`: start from `a` and assign each
binding of `b` in order, so same-named entries of `b` override those of
`a` and new keys of `b` are appended in order. -/
def dictMerge (a b : List (String × Json)) : List (String × Json) :=
  b.foldl (fun acc p => dictInsert acc p.1 p.2) a

/-- Environment-variable lookup (`os.environ.get`): the value of the first
pair whose name matches. -/
def lookupEnv (env : List (String × String)) (k : String) : Option String :=
  (env.find? (fun p => p.1 == k)).map Prod.snd

/-- Python membership test of the string `k` in a list of JSON values
(`k in lst` uses `==` against each element; only string elements can
compare equal to a string). -/
def listHasStr (k : String) : List Json → Bool
  | [] => false
  | Json.str s :: rest => (s == k) || listHasStr k rest
  | _ :: rest => listHasStr k rest

/-- Index (in characters) of the first occurrence of `pat` in a character
list, if any. -/
def firstOccurIdx (pat : List Char) : List Char → Option Nat
  | [] => if pat.isPrefixOf ([] : List Char) then some 0 else none
  | c :: rest =>
    if pat.isPrefixOf (c :: rest) then some 0
    else (firstOccurIdx pat rest).map (· + 1)

/-- Minimum of a list of naturals, `none` on the empty list. -/
def minIdx? : List Nat → Option Nat
  | [] => none
  | i :: rest =>
    match minIdx? rest with
    | none => some i
    | some j => some (min i j)

/-- Modelled from the spec: the helper `enforce_stop_tokens` is imported
from `langchain.llms.utils`, which is not part of src/.  The spec says:
"scan the extracted text and, for each stop sequence, find its first
occurrence index; truncate the text at the minimum such index across all
stop sequences (text before the earliest-occurring stop marker is kept, the
marker itself and everything after is dropped).  If no stop sequence occurs,
return text unmodified."  (The spec leaves empty stop lists and empty stop
strings undefined; this definition returns the text unchanged for an empty
stop list.) -/
def enforce_stop_tokens (text : String) (stop : List String) : String :=
  match minIdx? (stop.filterMap (fun s => firstOccurIdx s.data text.data)) with
  | none => text
  | some i => String.mk (text.data.take i)

/-- Single-quote character, written via its code point. -/
def sq : String := String.singleton (Char.ofNat 39)

mutual

/-- Python `repr` of a JSON value (used for elements nested inside
containers when the value is converted by `str`). -/
def pyRepr : Json → String
  | .null => "None"
  | .bool true => "True"
  | .bool false => "False"
  | .num n => toString n
  | .str s => sq ++ s ++ sq
  | .arr es => "[" ++ pyReprSeq es ++ "]"
  | .obj kvs => "\x7b" ++ pyReprPairs kvs ++ "\x7d"

/-- Comma-separated `repr` of list elements. -/
def pyReprSeq : List Json → String
  | [] => ""
  | [x] => pyRepr x
  | x :: xs => pyRepr x ++ ", " ++ pyReprSeq xs

/-- Comma-separated `repr` of dict pairs. -/
def pyReprPairs : List (String × Json) → String
  | [] => ""
  | [(k, v)] => sq ++ k ++ sq ++ ": " ++ pyRepr v
  | (k, v) :: xs => sq ++ k ++ sq ++ ": " ++ pyRepr v ++ ", " ++ pyReprPairs xs

end

/-- Python `str` of a JSON value, as interpolated by an f-string: a
plain string is used verbatim, anything else via its `repr`-based rendering. -/
def pyStr : Json → String
  | .str s => s
  | v => pyRepr v

/-- Python `str` of an `Optional[str]`: `None` renders as "None". -/
def pyStrOfOptStr : Option String → String
  | none => "None"
  | some s => s

/-- Python exception values raised by the adapter, recording the exception
class and its message.  The source only ever raises `ValueError`; the
remaining classes are the built-in exceptions Python itself raises on the
malformed-shape paths (`d[k]` with a missing key, `lst[0]` on an empty
list, subscripting a non-container).  `configurationError` is the spec's
name for the missing-token failure of the spec-modelled external helper
`get_from_dict_or_env`. -/
inductive PyError where
  | valueError (msg : String)
  | keyError (key : String)
  | indexError (msg : String)
  | typeError (msg : String)
  | configurationError (msg : String)

/-- Python exception class name of an error value. -/
def PyError.kind : PyError → String
  | .valueError _ => "ValueError"
  | .keyError _ => "KeyError"
  | .indexError _ => "IndexError"
  | .typeError _ => "TypeError"
  | .configurationError _ => "ConfigurationError"

/-- Outcome of one `requests.post` attempt: a transport-level failure
(`requests.exceptions.RequestException` with message `e`), or a response
whose `.json()` decodes to `body`. -/
inductive HttpOutcome where
  | transportError (e : String)
  | response (body : Json)

/-- The adapter's fields (source lines 37-45): `endpoint_url`, optional
`task`, optional `model_kwargs`, optional `huggingfacehub_api_token`. -/
structure HuggingFaceEndpoint where
  endpoint_url : String
  task : Option String
  model_kwargs : Option (List (String × Json))
  huggingfacehub_api_token : Option String

/-- Source line 12: the tuple of valid tasks, in source order. -/
def VALID_TASKS : List String := ["text2text-generation", "text-generation", "summarization"]

/-- Python `str` of the `VALID_TASKS` tuple, as interpolated into the
invalid-task message. -/
def validTasksRepr : String :=
  "(" ++ sq ++ "text2text-generation" ++ sq ++ ", " ++ sq ++ "text-generation" ++ sq
    ++ ", " ++ sq ++ "summarization" ++ sq ++ ")"

/-- Message head of the transport-failure `ValueError` (source line 133). -/
def transportMsgPre : String := "Error raised by inference endpoint: "

/-- Message head of the error-payload `ValueError` (source line 137). -/
def apiMsgPre : String := "Error raised by inference API: "

/-- Message head of the invalid-task `ValueError` (source line 148). -/
def invalidMsgPre : String := "Got invalid task "

/-- The invalid-task message (source lines 147-149):
f"Got invalid task \x7bself.task\x7d, currently only \x7bVALID_TASKS\x7d are supported". -/
def invalidTaskMsg (task : Option String) : String :=
  invalidMsgPre ++ pyStrOfOptStr task ++ ", currently only " ++ validTasksRepr ++ " are supported"

/-- Python membership test `"error" in v` generalised to the key `k`: key
test on a dict, element test on a list, substring test on a string, and a
`TypeError` on non-iterable values. -/
def pyContains (v : Json) (k : String) : Except PyError Bool :=
  match v with
  | .obj kvs => .ok (kvs.any (fun p => p.1 == k))
  | .arr es => .ok (listHasStr k es)
  | .str s => .ok ((firstOccurIdx k.data s.data).isSome)
  | _ => .error (.typeError "argument is not iterable")

/-- Python subscript `v[0]`: first element of a list (IndexError on an
empty one), first character of a string, `KeyError` on a JSON dict (whose
keys are strings), `TypeError` otherwise. -/
def pyIndex0 : Json → Except PyError Json
  | .arr [] => .error (.indexError "list index out of range")
  | .arr (x :: _) => .ok x
  | .obj _ => .error (.keyError "0")
  | .str s =>
    match s.data with
    | [] => .error (.indexError "string index out of range")
    | c :: _ => .ok (.str (String.mk [c]))
  | _ => .error (.typeError "object is not subscriptable")

/-- Python subscript `v[k]` for a string key `k`: dict lookup (KeyError when
missing), `TypeError` on lists, strings and non-containers. -/
def pySubscript (v : Json) (k : String) : Except PyError Json :=
  match v with
  | .obj kvs =>
    match lookupKvs kvs k with
    | some w => .ok w
    | none => .error (.keyError k)
  | .arr _ => .error (.typeError "list indices must be integers or slices, not str")
  | .str _ => .error (.typeError "string indices must be integers")
  | _ => .error (.typeError "object is not subscriptable")

/-- Python slice `v[n:]`: drop the first `n` characters of a string or the
first `n` elements of a list (total, never out of range), `TypeError`
otherwise. -/
def pySliceFrom (v : Json) (n : Nat) : Except PyError Json :=
  match v with
  | .str s => .ok (.str (String.mk (s.data.drop n)))
  | .arr xs => .ok (.arr (xs.drop n))
  | _ => .error (.typeError "object is not subscriptable")

/-- The task dispatch of `_call` (source lines 139-150) applied to the
decoded response `generated_text`:
for "text-generation", `generated_text[0]["generated_text"][len(prompt):]`;
for "text2text-generation", `generated_text[0]["generated_text"]`;
for "summarization", `generated_text[0]["summary_text"]`;
otherwise `raise ValueError(f"Got invalid task ...")`. -/
def extractByTask (task : Option String) (prompt : String) (generated_text : Json) :
    Except PyError Json :=
  if task = some "text-generation" then
    match pyIndex0 generated_text with
    | .error e => .error e
    | .ok first =>
      match pySubscript first "generated_text" with
      | .error e => .error e
      | .ok v => pySliceFrom v prompt.length
  else if task = some "text2text-generation" then
    match pyIndex0 generated_text with
    | .error e => .error e
    | .ok first => pySubscript first "generated_text"
  else if task = some "summarization" then
    match pyIndex0 generated_text with
    | .error e => .error e
    | .ok first => pySubscript first "summary_text"
  else
    .error (.valueError (invalidTaskMsg task))

/-- The stop handling of `_call` (source lines 151-154): when `stop` is
`None` the text passes through; otherwise `enforce_stop_tokens(text, stop)`
is applied (which requires the text to be a string; on a non-string Python's
`re.split` would raise `TypeError`). -/
def applyStop (text : Json) (stop : Option (List String)) : Except PyError Json :=
  match stop with
  | none => .ok text
  | some l =>
    match text with
    | .str s => .ok (.str (enforce_stop_tokens s l))
    | _ => .error (.typeError "expected string or bytes-like object")

/-- Processing of a successfully fetched and JSON-decoded response body
(source lines 134-155): raise `ValueError(f"Error raised by inference API:
\x7b...\x7d")` when the body contains "error", otherwise extract per task
and apply the stop handling. -/
def handleBody (self : HuggingFaceEndpoint) (prompt : String)
    (stop : Option (List String)) (body : Json) : Except PyError Json :=
  match pyContains body "error" with
  | .error e => .error e
  | .ok true =>
    match pySubscript body "error" with
    | .error e => .error e
    | .ok v => .error (.valueError (apiMsgPre ++ pyStr v))
  | .ok false =>
    match extractByTask self.task prompt body with
    | .error e => .error e
    | .ok text => applyStop text stop

/-- The merged parameters of `_call` (source lines 115-118):
`params = \x7b**_model_kwargs, **kwargs\x7d` with `_model_kwargs =
self.model_kwargs or \x7b\x7d`. -/
def callParams (self : HuggingFaceEndpoint) (kwargs : List (String × Json)) :
    List (String × Json) :=
  dictMerge (self.model_kwargs.getD []) kwargs

/-- The request body of `_call` (source line 119):
`parameter_payload = \x7b"inputs": prompt, "parameters": params\x7d`. -/
def requestPayload (self : HuggingFaceEndpoint) (prompt : String)
    (kwargs : List (String × Json)) : Json :=
  .obj [("inputs", .str prompt), ("parameters", .obj (callParams self kwargs))]

/-- The request headers of `_call` (source lines 122-125). -/
def requestHeaders (self : HuggingFaceEndpoint) : List (String × String) :=
  [("Authorization", "Bearer " ++ pyStrOfOptStr self.huggingfacehub_api_token),
   ("Content-Type", "application/json")]

/-- `HuggingFaceEndpoint._call` (source lines 94-155).  The transport
oracle `post` is consulted exactly once, at attempt number `0`, with the
request body; a `RequestException` becomes `ValueError(f"Error raised by
inference endpoint: \x7be\x7d")` (source lines 128-133), and a decoded
response body is processed by `handleBody`. -/
def call (self : HuggingFaceEndpoint) (post : Nat → Json → HttpOutcome)
    (prompt : String) (stop : Option (List String))
    (kwargs : List (String × Json)) : Except PyError Json :=
  match post 0 (requestPayload self prompt kwargs) with
  | .transportError e => .error (.valueError (transportMsgPre ++ e))
  | .response body => handleBody self prompt stop body

/-- `HuggingFaceEndpoint._identifying_params` (source lines 80-87): the
mapping with keys "endpoint_url", "task" and "model_kwargs", where
`model_kwargs` defaults to the empty dict. -/
def identifying_params (self : HuggingFaceEndpoint) : List (String × Json) :=
  [("endpoint_url", Json.str self.endpoint_url),
   ("task", match self.task with | none => Json.null | some t => Json.str t),
   ("model_kwargs", Json.obj (self.model_kwargs.getD []))]

/-- Modelled from the spec: `get_from_dict_or_env` is imported from
`langchain.utils`, which is not part of src/.  Per the spec: "resolve the
api_token — if not explicitly supplied, read it from a designated
environment variable; fail with a ConfigurationError if absent." -/
def get_from_dict_or_env (values : List (String × Json)) (key envKey : String)
    (env : List (String × String)) : Except PyError String :=
  match lookupKvs values key with
  | some (Json.str s) => .ok s
  | _ =>
    match lookupEnv env envKey with
    | some s => .ok s
    | none =>
      .error (.configurationError
        ("Did not find " ++ key ++ ", please add an environment variable " ++ envKey
          ++ " which contains it, or pass " ++ key ++ " as a named parameter."))

/-- `HuggingFaceEndpoint.validate_environment` (source lines 53-78): resolve
the token from the values dict or the `HUGGINGFACEHUB_API_TOKEN` environment
variable (failing if absent), then — and only then — import
`huggingface_hub` (`hubInstalled` models the import succeeding) and call
`HfApi(...).whoami()` (the network oracle `whoami`), turning a failed check
into `ValueError("Could not authenticate ...")` and a failed import into
`ValueError("Could not import ...")`.  On success the resolved token is
stored back into the values dict. -/
def validate_environment (values : List (String × Json)) (env : List (String × String))
    (hubInstalled : Bool) (whoami : String → Except String Unit) :
    Except PyError (List (String × Json)) :=
  match get_from_dict_or_env values "huggingfacehub_api_token" "HUGGINGFACEHUB_API_TOKEN" env with
  | .error e => .error e
  | .ok token =>
    if hubInstalled then
      match whoami token with
      | .ok _ => .ok (dictInsert values "huggingfacehub_api_token" (.str token))
      | .error _ =>
        .error (.valueError "Could not authenticate with huggingface_hub. Please check your API token.")
    else
      .error (.valueError "Could not import huggingface_hub python package. Please install it with `pip install huggingface_hub`.")

/-- Construction of a `HuggingFaceEndpoint` (source lines 15-52).  The
`@root_validator()` decorator on `validate_environment` is commented out in
the source (line 52 reads `# @root_validator()`), so pydantic never invokes
`validate_environment` during construction: constructing the object simply
records the four fields and always succeeds, consulting neither the
environment (`env` is ignored) nor the network. -/
def construct (endpoint_url : String) (task : Option String)
    (model_kwargs : Option (List (String × Json))) (token : Option String)
    (env : List (String × String)) : Except PyError HuggingFaceEndpoint :=
  .ok (HuggingFaceEndpoint.mk endpoint_url task model_kwargs token)

/-- Whether an error result is absent (the `Except` value is `ok`). -/
def isOkE {α : Type} : Except PyError α → Bool
  | .ok _ => true
  | .error _ => false

/-- Whether a task value is one the dispatch of `_call` supports. -/
def taskSupported (task : Option String) : Bool :=
  decide (task = some "text-generation") || decide (task = some "text2text-generation")
    || decide (task = some "summarization")

/-- The pattern `pat` occurs in `text` starting at character index `j`. -/
def OccursAt (pat text : List Char) (j : Nat) : Prop :=
  pat <+: text.drop j

/-! Helper lemmas about the embedding. -/

/-- A transport failure at the sole attempt makes `_call` raise the
transport `ValueError`. -/
theorem call_eq_transport (self : HuggingFaceEndpoint) (post : Nat → Json → HttpOutcome)
    (prompt : String) (stop : Option (List String)) (kwargs : List (String × Json))
    (e : String) (h : post 0 (requestPayload self prompt kwargs) = HttpOutcome.transportError e) :
    call self post prompt stop kwargs = Except.error (PyError.valueError (transportMsgPre ++ e)) := by
  unfold call; rw [h]

/-- A decoded response at the sole attempt makes `_call` process the body. -/
theorem call_eq_handle (self : HuggingFaceEndpoint) (post : Nat → Json → HttpOutcome)
    (prompt : String) (stop : Option (List String)) (kwargs : List (String × Json))
    (body : Json) (h : post 0 (requestPayload self prompt kwargs) = HttpOutcome.response body) :
    call self post prompt stop kwargs = handleBody self prompt stop body := by
  unfold call; rw [h]

/-- The result of `_call` depends on the transport only through attempt `0`
at the request payload: exactly one POST, no retry. -/
theorem call_post_congr (self : HuggingFaceEndpoint) (post post' : Nat → Json → HttpOutcome)
    (prompt : String) (stop : Option (List String)) (kwargs : List (String × Json))
    (h : post 0 (requestPayload self prompt kwargs) = post' 0 (requestPayload self prompt kwargs)) :
    call self post prompt stop kwargs = call self post' prompt stop kwargs := by
  unfold call; rw [h]

/-- A list of JSON objects has no string element, so the Python membership
test of a string in it is false. -/
theorem listHasStr_eq_false (k : String) (es : List Json) (h : es.all Json.isObj = true) :
    listHasStr k es = false := by
  induction es with
  | nil => rfl
  | cons x xs ih =>
    simp only [List.all_cons, Bool.and_eq_true] at h
    cases x with
    | obj kvs => simpa [listHasStr] using ih h.2
    | null => simp [Json.isObj] at h
    | bool b => simp [Json.isObj] at h
    | num n => simp [Json.isObj] at h
    | str s => simp [Json.isObj] at h
    | arr ys => simp [Json.isObj] at h

/-- The error-payload test is false on an array all of whose elements are
objects. -/
theorem pyContains_arr_objs (es : List Json) (h : es.all Json.isObj = true) :
    pyContains (Json.arr es) "error" = Except.ok false := by
  simp [pyContains, listHasStr_eq_false "error" es h]

/-- Task dispatch for "text-generation": index 0, field "generated_text",
then drop the first `len(prompt)` characters. -/
theorem extract_textgen (prompt : String) (kvs : List (String × Json)) (rest : List Json)
    (g : String) (hl : lookupKvs kvs "generated_text" = some (Json.str g)) :
    extractByTask (some "text-generation") prompt (Json.arr (Json.obj kvs :: rest)) =
      Except.ok (Json.str (String.mk (g.data.drop prompt.length))) := by
  simp [extractByTask, pyIndex0, pySubscript, pySliceFrom, hl]

/-- Task dispatch for "text2text-generation": index 0, field
"generated_text", verbatim. -/
theorem extract_text2text (prompt : String) (kvs : List (String × Json)) (rest : List Json)
    (g : String) (hl : lookupKvs kvs "generated_text" = some (Json.str g)) :
    extractByTask (some "text2text-generation") prompt (Json.arr (Json.obj kvs :: rest)) =
      Except.ok (Json.str g) := by
  simp [extractByTask, pyIndex0, pySubscript, hl]

/-- Task dispatch for "summarization": index 0, field "summary_text",
verbatim. -/
theorem extract_summarization (prompt : String) (kvs : List (String × Json)) (rest : List Json)
    (g : String) (hl : lookupKvs kvs "summary_text" = some (Json.str g)) :
    extractByTask (some "summarization") prompt (Json.arr (Json.obj kvs :: rest)) =
      Except.ok (Json.str g) := by
  simp [extractByTask, pyIndex0, pySubscript, hl]

/-- An unsupported task value makes the dispatch raise the invalid-task
`ValueError` without touching the response body at all. -/
theorem extract_invalid (task : Option String) (prompt : String) (body : Json)
    (h : taskSupported task = false) :
    extractByTask task prompt body = Except.error (PyError.valueError (invalidTaskMsg task)) := by
  simp only [taskSupported, Bool.or_eq_false_iff, decide_eq_false_iff_not] at h
  unfold extractByTask
  rw [if_neg h.1.1, if_neg h.1.2, if_neg h.2]

/-- Response processing when the body carries no error key and extraction
succeeds: the result is the stop handling applied to the extracted text. -/
theorem handleBody_extract (self : HuggingFaceEndpoint) (prompt : String)
    (stop : Option (List String)) (body : Json) (text : Json)
    (hno : pyContains body "error" = Except.ok false)
    (hex : extractByTask self.task prompt body = Except.ok text) :
    handleBody self prompt stop body = applyStop text stop := by
  unfold handleBody; rw [hno, hex]

/-- Response processing when the decoded body is a mapping with an "error"
key: the inference-API `ValueError` carrying the error value. -/
theorem handleBody_error_payload (self : HuggingFaceEndpoint) (prompt : String)
    (stop : Option (List String)) (kvs : List (String × Json)) (v : Json)
    (hl : lookupKvs kvs "error" = some v) :
    handleBody self prompt stop (Json.obj kvs) =
      Except.error (PyError.valueError (apiMsgPre ++ pyStr v)) := by
  have hany : kvs.any (fun p => p.1 == "error") = true := by
    cases hfq : kvs.find? (fun p => p.1 == "error") with
    | none => rw [lookupKvs, hfq] at hl; cases hl
    | some q =>
      have hq1 := List.find?_some hfq
      exact List.any_eq_true.mpr ⟨q, List.mem_of_find?_eq_some hfq, hq1⟩
  have hcont : pyContains (Json.obj kvs) "error" = Except.ok true := by
    simp only [pyContains]; rw [hany]
  have hsub : pySubscript (Json.obj kvs) "error" = Except.ok v := by
    simp only [pySubscript]; rw [hl]
  unfold handleBody
  rw [hcont, hsub]

/-- Unfolding of Python dict lookup on a nonempty association list. -/
theorem lookupKvs_cons (p : String × Json) (rest : List (String × Json)) (k : String) :
    lookupKvs (p :: rest) k = if p.1 = k then some p.2 else lookupKvs rest k := by
  by_cases h : p.1 = k
  · simp [lookupKvs, List.find?_cons_of_pos, h]
  · rw [lookupKvs, List.find?_cons_of_neg _ (by simpa using h), if_neg h]; rfl

/-- Lookup after Python dict assignment: the assigned key maps to the new
value and every other key is untouched. -/
theorem lookupKvs_dictInsert (kvs : List (String × Json)) (k k' : String) (v : Json) :
    lookupKvs (dictInsert kvs k v) k' = if k' = k then some v else lookupKvs kvs k' := by
  induction kvs with
  | nil =>
    by_cases h : k' = k
    · subst h; simp [dictInsert, lookupKvs_cons]
    · have h' : ¬ k = k' := fun hh => h hh.symm
      simp [dictInsert, lookupKvs_cons, h, h', lookupKvs]
  | cons p rest ih =>
    by_cases hpk : p.1 = k
    · rw [show dictInsert (p :: rest) k v = (k, v) :: rest from by
        simp [dictInsert, hpk]]
      by_cases h : k' = k
      · subst h; simp [lookupKvs_cons]
      · have hkk' : ¬ k = k' := fun hh => h hh.symm
        have hp' : ¬ p.1 = k' := fun hh => hkk' (hpk.symm.trans hh)
        rw [lookupKvs_cons, if_neg hkk', if_neg h, lookupKvs_cons, if_neg hp']
    · rw [show dictInsert (p :: rest) k v = p :: dictInsert rest k v from by
        simp [dictInsert, hpk]]
      rw [lookupKvs_cons, ih, lookupKvs_cons]
      by_cases hp' : p.1 = k'
      · rw [if_pos hp', if_neg (fun hh : k' = k => hpk (hp'.trans hh)), if_pos hp']
      · rw [if_neg hp', if_neg hp']

/-- A key that is absent from the key list is not found. -/
theorem lookupKvs_eq_none (l : List (String × Json)) (k : String)
    (h : k ∉ l.map Prod.fst) : lookupKvs l k = none := by
  induction l with
  | nil => rfl
  | cons p rest ih =>
    simp only [List.map_cons, List.mem_cons, not_or] at h
    rw [lookupKvs_cons, if_neg (fun hh => h.1 hh.symm)]
    exact ih h.2

/-- Merged-dict lookup: per-call entries (`b`) override same-named entries
of `a`, and keys found in neither are absent.  Requires `b` to have unique
keys, as every Python dict does. -/
theorem lookupKvs_dictMerge (a b : List (String × Json)) (hb : (b.map Prod.fst).Nodup)
    (k : String) :
    lookupKvs (dictMerge a b) k =
      match lookupKvs b k with
      | some v => some v
      | none => lookupKvs a k := by
  induction b generalizing a with
  | nil => simp [dictMerge, lookupKvs]
  | cons p rest ih =>
    simp only [List.map_cons, List.nodup_cons] at hb
    rw [show dictMerge a (p :: rest) = dictMerge (dictInsert a p.1 p.2) rest from rfl,
      ih _ hb.2, lookupKvs_cons]
    by_cases hk : p.1 = k
    · subst hk
      rw [lookupKvs_eq_none rest p.1 hb.1, if_pos rfl]
      simp [lookupKvs_dictInsert]
    · rw [if_neg hk]
      cases hrk : lookupKvs rest k with
      | some w => simp
      | none =>
        have hk' : ¬ k = p.1 := fun hh => hk hh.symm
        simp [lookupKvs_dictInsert, hk']

/-- When the first-occurrence search succeeds, the pattern occurs at the
returned index and at no earlier index. -/
theorem firstOccurIdx_some (pat : List Char) :
    ∀ (l : List Char) (i : Nat), firstOccurIdx pat l = some i →
      OccursAt pat l i ∧ ∀ j, j < i → ¬ OccursAt pat l j := by
  intro l
  induction l with
  | nil =>
    intro i h
    unfold firstOccurIdx at h
    split at h
    · rename_i hp
      injection h with h'
      subst h'
      exact ⟨List.isPrefixOf_iff_prefix.mp hp, fun j hj => absurd hj (Nat.not_lt_zero j)⟩
    · cases h
  | cons c rest ih =>
    intro i h
    unfold firstOccurIdx at h
    split at h
    · rename_i hp
      injection h with h'
      subst h'
      exact ⟨List.isPrefixOf_iff_prefix.mp hp, fun j hj => absurd hj (Nat.not_lt_zero j)⟩
    · rename_i hp
      cases ho : firstOccurIdx pat rest with
      | none => rw [ho] at h; cases h
      | some i' =>
        rw [ho] at h
        injection h with h'
        subst h'
        obtain ⟨h1, h2⟩ := ih i' ho
        refine ⟨by simpa [OccursAt] using h1, ?_⟩
        intro j hj
        cases j with
        | zero =>
          intro hocc
          exact hp (List.isPrefixOf_iff_prefix.mpr (by simpa [OccursAt] using hocc))
        | succ j' =>
          intro hocc
          exact h2 j' (Nat.lt_of_succ_lt_succ hj) (by simpa [OccursAt] using hocc)

/-- When the first-occurrence search fails, the pattern occurs nowhere. -/
theorem firstOccurIdx_none (pat : List Char) :
    ∀ (l : List Char), firstOccurIdx pat l = none → ∀ j, ¬ OccursAt pat l j := by
  intro l
  induction l with
  | nil =>
    intro h j hocc
    unfold firstOccurIdx at h
    split at h
    · cases h
    · rename_i hp
      exact hp (List.isPrefixOf_iff_prefix.mpr (by simpa [OccursAt, List.drop_eq_nil_of_eq_nil] using hocc))
  | cons c rest ih =>
    intro h j hocc
    unfold firstOccurIdx at h
    split at h
    · cases h
    · rename_i hp
      cases ho : firstOccurIdx pat rest with
      | some i' => rw [ho] at h; cases h
      | none =>
        cases j with
        | zero => exact hp (List.isPrefixOf_iff_prefix.mpr (by simpa [OccursAt] using hocc))
        | succ j' => exact ih ho j' (by simpa [OccursAt] using hocc)

/-- An occurrence anywhere makes the first-occurrence search succeed. -/
theorem firstOccurIdx_isSome_of_occurs (pat l : List Char) (j : Nat) (h : OccursAt pat l j) :
    (firstOccurIdx pat l).isSome = true := by
  cases ho : firstOccurIdx pat l with
  | none => exact absurd h (firstOccurIdx_none pat l ho j)
  | some i => rfl

/-- An occurrence at some index is exactly an infix. -/
theorem infix_of_occursAt (pat l : List Char) (j : Nat) (h : OccursAt pat l j) :
    pat <:+: l := by
  obtain ⟨t, ht⟩ := h
  exact ⟨l.take j, t, by rw [List.append_assoc, ht, List.take_append_drop]⟩

/-- Conversely, an infix occurs at the length of the part before it. -/
theorem occursAt_of_infix (pat l : List Char) (h : pat <:+: l) :
    ∃ j, OccursAt pat l j := by
  obtain ⟨s, t, hst⟩ := h
  refine ⟨s.length, ⟨t, ?_⟩⟩
  rw [← hst, List.append_assoc, List.drop_left]

/-- A successful first-occurrence search witnesses an infix. -/
theorem infix_of_firstOccurIdx_isSome (pat l : List Char)
    (h : (firstOccurIdx pat l).isSome = true) : pat <:+: l := by
  obtain ⟨i, hi⟩ := Option.isSome_iff_exists.mp h
  exact infix_of_occursAt pat l i (firstOccurIdx_some pat l i hi).1

/-- A `none` minimum only happens on the empty list. -/
theorem minIdx?_eq_none (l : List Nat) (h : minIdx? l = none) : l = [] := by
  cases l with
  | nil => rfl
  | cons i rest =>
    unfold minIdx? at h
    split at h <;> cases h

/-- The minimum of a nonempty list is a member and a lower bound. -/
theorem minIdx?_spec (l : List Nat) : ∀ (m : Nat), minIdx? l = some m →
    m ∈ l ∧ ∀ x ∈ l, m ≤ x := by
  induction l with
  | nil => intro m h; cases h
  | cons i rest ih =>
    intro m h
    unfold minIdx? at h
    cases hr : minIdx? rest with
    | none =>
      rw [hr] at h
      injection h with h'
      subst h'
      rw [minIdx?_eq_none rest hr]
      exact ⟨List.mem_singleton.mpr rfl, by simp⟩
    | some j =>
      rw [hr] at h
      injection h with h'
      subst h'
      obtain ⟨hjmem, hjle⟩ := ih j hr
      constructor
      · rcases Nat.le_total i j with hij | hij
        · have hm : min i j = i := by omega
          rw [hm]; exact List.mem_cons_self i rest
        · have hm : min i j = j := by omega
          rw [hm]; exact List.mem_cons_of_mem i hjmem
      · intro x hx
        rcases List.mem_cons.mp hx with hx | hx
        · subst hx; omega
        · have := hjle x hx; omega

/-- A member that is a lower bound is the minimum. -/
theorem minIdx?_eq_some (l : List Nat) (m : Nat) (hmem : m ∈ l) (hle : ∀ x ∈ l, m ≤ x) :
    minIdx? l = some m := by
  cases hml : minIdx? l with
  | none => rw [minIdx?_eq_none l hml] at hmem; cases hmem
  | some m' =>
    obtain ⟨hm'mem, hm'le⟩ := minIdx?_spec l m' hml
    rw [Nat.le_antisymm (hm'le m hmem) (hle m' hm'mem)]

/-- When no stop sequence occurs anywhere in the text, the stop handling
returns the text unchanged. -/
theorem enforce_stop_of_no_occurrence (g : String) (l : List String)
    (h : ∀ s ∈ l, ∀ j, ¬ OccursAt s.data g.data j) :
    enforce_stop_tokens g l = g := by
  have hfm : l.filterMap (fun s => firstOccurIdx s.data g.data) = [] := by
    rw [List.filterMap_eq_nil_iff]
    intro s hs
    cases ho : firstOccurIdx s.data g.data with
    | none => rfl
    | some i => exact absurd (firstOccurIdx_some _ _ i ho).1 (h s hs i)
  unfold enforce_stop_tokens
  rw [hfm]
  rfl

/-- When `i` is an occurrence index of some stop sequence and no stop
sequence occurs before `i`, the stop handling truncates the text at `i`. -/
theorem enforce_stop_of_min (g : String) (l : List String) (i : Nat)
    (hocc : ∃ s ∈ l, OccursAt s.data g.data i)
    (hmin : ∀ j, (∃ s ∈ l, OccursAt s.data g.data j) → i ≤ j) :
    enforce_stop_tokens g l = String.mk (g.data.take i) := by
  obtain ⟨s, hs, hoccs⟩ := hocc
  have hex : (firstOccurIdx s.data g.data).isSome = true :=
    firstOccurIdx_isSome_of_occurs _ _ _ hoccs
  obtain ⟨i₀, hi₀⟩ := Option.isSome_iff_exists.mp hex
  obtain ⟨hocc₀, hmin₀⟩ := firstOccurIdx_some _ _ _ hi₀
  have hi₀i : i₀ = i := by
    have h1 : i ≤ i₀ := hmin i₀ ⟨s, hs, hocc₀⟩
    have h2 : ¬ i < i₀ := fun hlt => hmin₀ i hlt hoccs
    omega
  have hmem : i ∈ l.filterMap (fun s => firstOccurIdx s.data g.data) :=
    List.mem_filterMap.mpr ⟨s, hs, by rw [hi₀, hi₀i]⟩
  have hleall : ∀ x ∈ l.filterMap (fun s => firstOccurIdx s.data g.data), i ≤ x := by
    intro x hx
    obtain ⟨s', hs', hfo⟩ := List.mem_filterMap.mp hx
    exact hmin x ⟨s', hs', (firstOccurIdx_some _ _ _ hfo).1⟩
  unfold enforce_stop_tokens
  rw [minIdx?_eq_some _ i hmem hleall]

/-- Two strings carrying incomparable prefixes are distinct. -/
theorem ne_of_distinct_prefixes (p q : List Char)
    (hp : p.isPrefixOf q = false) (hq : q.isPrefixOf p = false) :
    ∀ (m₁ m₂ : String), p <+: m₁.data → q <+: m₂.data → m₁ ≠ m₂ := by
  intro m₁ m₂ h1 h2 he
  rw [he] at h1
  rcases List.prefix_or_prefix_of_prefix h1 h2 with h | h
  · have := List.isPrefixOf_iff_prefix.mpr h
    rw [hp] at this
    cases this
  · have := List.isPrefixOf_iff_prefix.mpr h
    rw [hq] at this
    cases this

/-- Unfolded character data of the invalid-task message. -/
theorem invalidTaskMsg_data (task : Option String) :
    (invalidTaskMsg task).data =
      invalidMsgPre.data ++ (pyStrOfOptStr task).data ++ (", currently only ").data
        ++ validTasksRepr.data ++ (" are supported").data := rfl

/-! Claim theorems. -/

/-- C1: for every call to `_call` whose successful HTTP response decodes to
a JSON array of mappings, the text extracted (handed to the stop handling
unchanged) depends only on the configured task: for "text-generation" it is
element `[0]["generated_text"]` with its first `len(prompt)` characters
removed; for "text2text-generation" it is `[0]["generated_text"]` verbatim;
for "summarization" it is `[0]["summary_text"]` verbatim. -/
theorem C1_task_extraction (self : HuggingFaceEndpoint) (post : Nat → Json → HttpOutcome)
    (prompt : String) (stop : Option (List String)) (kwargs : List (String × Json))
    (kvs : List (String × Json)) (rest : List Json) (g : String)
    (hrest : rest.all Json.isObj = true)
    (hpost : post 0 (requestPayload self prompt kwargs) =
      HttpOutcome.response (Json.arr (Json.obj kvs :: rest))) :
    (self.task = some "text-generation" → lookupKvs kvs "generated_text" = some (Json.str g) →
      call self post prompt stop kwargs =
        applyStop (Json.str (String.mk (g.data.drop prompt.length))) stop)
    ∧ (self.task = some "text2text-generation" →
        lookupKvs kvs "generated_text" = some (Json.str g) →
      call self post prompt stop kwargs = applyStop (Json.str g) stop)
    ∧ (self.task = some "summarization" → lookupKvs kvs "summary_text" = some (Json.str g) →
      call self post prompt stop kwargs = applyStop (Json.str g) stop) := by
  have hall : (Json.obj kvs :: rest).all Json.isObj = true := by
    simp [Json.isObj, hrest]
  have hno := pyContains_arr_objs (Json.obj kvs :: rest) hall
  refine ⟨fun ht hl => ?_, fun ht hl => ?_, fun ht hl => ?_⟩
  · rw [call_eq_handle _ _ _ _ _ _ hpost]
    exact handleBody_extract _ _ _ _ _ hno
      (by rw [ht]; exact extract_textgen prompt kvs rest g hl)
  · rw [call_eq_handle _ _ _ _ _ _ hpost]
    exact handleBody_extract _ _ _ _ _ hno
      (by rw [ht]; exact extract_text2text prompt kvs rest g hl)
  · rw [call_eq_handle _ _ _ _ _ _ hpost]
    exact handleBody_extract _ _ _ _ _ hno
      (by rw [ht]; exact extract_summarization prompt kvs rest g hl)

/-- C1 witness: for task "text-generation", prompt "Tell me a joke." and
response `[\x7b"generated_text": "Tell me a joke. Why did"\x7d]`, the call
returns " Why did". -/
theorem C1_task_extraction_witness :
    call (HuggingFaceEndpoint.mk "u" (some "text-generation") none none)
      (fun _ _ => HttpOutcome.response
        (Json.arr [Json.obj [("generated_text", Json.str "Tell me a joke. Why did")]]))
      "Tell me a joke." none [] = Except.ok (Json.str " Why did") := by
  have h := (C1_task_extraction (HuggingFaceEndpoint.mk "u" (some "text-generation") none none)
    (fun _ _ => HttpOutcome.response
      (Json.arr [Json.obj [("generated_text", Json.str "Tell me a joke. Why did")]]))
    "Tell me a joke." none [] [("generated_text", Json.str "Tell me a joke. Why did")] []
    "Tell me a joke. Why did" rfl rfl).1 rfl rfl
  exact h

/-- C2: for every call to `_call` with a non-empty stop list, the result is
the extracted text with the stop handling applied, the stop handling
returns the text unchanged when no stop sequence occurs, truncates at the
minimum first-occurrence index over all stop sequences otherwise, and in
particular maps "abcSTOPdef" with stop ["STOP"] to "abc". -/
theorem C2_stop_truncation (self : HuggingFaceEndpoint) (post : Nat → Json → HttpOutcome)
    (prompt : String) (kwargs : List (String × Json)) (body : Json) (g : String)
    (l : List String)
    (hpost : post 0 (requestPayload self prompt kwargs) = HttpOutcome.response body)
    (hnoerr : pyContains body "error" = Except.ok false)
    (hext : extractByTask self.task prompt body = Except.ok (Json.str g))
    (hne : l ≠ []) :
    call self post prompt (some l) kwargs = Except.ok (Json.str (enforce_stop_tokens g l))
    ∧ ((∀ s ∈ l, ∀ j, ¬ OccursAt s.data g.data j) → enforce_stop_tokens g l = g)
    ∧ (∀ i, (∃ s ∈ l, OccursAt s.data g.data i) →
        (∀ j, (∃ s ∈ l, OccursAt s.data g.data j) → i ≤ j) →
        enforce_stop_tokens g l = String.mk (g.data.take i))
    ∧ enforce_stop_tokens "abcSTOPdef" ["STOP"] = "abc" := by
  refine ⟨?_, enforce_stop_of_no_occurrence g l,
    fun i h1 h2 => enforce_stop_of_min g l i h1 h2, by decide⟩
  rw [call_eq_handle _ _ _ _ _ _ hpost, handleBody_extract _ _ _ _ _ hnoerr hext]
  rfl

/-- C2 witness: with task "text2text-generation", extracted text
"abcSTOPdef" and stop ["STOP"], the call returns "abc". -/
theorem C2_stop_truncation_witness :
    call (HuggingFaceEndpoint.mk "u" (some "text2text-generation") none none)
      (fun _ _ => HttpOutcome.response
        (Json.arr [Json.obj [("generated_text", Json.str "abcSTOPdef")]]))
      "p" (some ["STOP"]) [] = Except.ok (Json.str "abc") := by
  have h := (C2_stop_truncation (HuggingFaceEndpoint.mk "u" (some "text2text-generation") none none)
    (fun _ _ => HttpOutcome.response
      (Json.arr [Json.obj [("generated_text", Json.str "abcSTOPdef")]]))
    "p" [] (Json.arr [Json.obj [("generated_text", Json.str "abcSTOPdef")]]) "abcSTOPdef"
    ["STOP"] rfl rfl rfl (by decide)).1
  exact h

/-- C3: for every call to `_call` whose decoded response is a mapping with
an "error" key, the call fails with the inference-API `ValueError` whose
message carries the error value (the value is an infix of the message), for
any configured task and stop list — no task-based extraction runs. -/
theorem C3_error_payload (self : HuggingFaceEndpoint) (post : Nat → Json → HttpOutcome)
    (prompt : String) (stop : Option (List String)) (kwargs : List (String × Json))
    (kvs : List (String × Json)) (v : Json)
    (hpost : post 0 (requestPayload self prompt kwargs) = HttpOutcome.response (Json.obj kvs))
    (hl : lookupKvs kvs "error" = some v) :
    call self post prompt stop kwargs =
      Except.error (PyError.valueError (apiMsgPre ++ pyStr v))
    ∧ (pyStr v).data <:+: (apiMsgPre ++ pyStr v).data := by
  refine ⟨?_, ⟨apiMsgPre.data, [], by rw [List.append_nil]; rfl⟩⟩
  rw [call_eq_handle _ _ _ _ _ _ hpost]
  exact handleBody_error_payload _ _ _ _ _ hl

/-- C3 witness: response `\x7b"error": "model not found"\x7d` makes the call
fail with a message containing "model not found". -/
theorem C3_error_payload_witness :
    call (HuggingFaceEndpoint.mk "u" (some "text-generation") none none)
      (fun _ _ => HttpOutcome.response (Json.obj [("error", Json.str "model not found")]))
      "p" none [] =
      Except.error (PyError.valueError "Error raised by inference API: model not found") := by
  have h := (C3_error_payload (HuggingFaceEndpoint.mk "u" (some "text-generation") none none)
    (fun _ _ => HttpOutcome.response (Json.obj [("error", Json.str "model not found")]))
    "p" none [] [("error", Json.str "model not found")] (Json.str "model not found") rfl rfl).1
  exact h

/-- C4: for every call to `_call` with an unset or unrecognized task, once
the response has been fetched and decoded and found not to carry an error
payload, the call fails with the invalid-task `ValueError`, whose message
names the invalid task and contains all three valid task names; this holds
for every error-free response body (even ones extraction could not process,
so no extraction logic runs), while a transport failure still takes
precedence (the response is fetched first). -/
theorem C4_invalid_task (self : HuggingFaceEndpoint) (post : Nat → Json → HttpOutcome)
    (prompt : String) (stop : Option (List String)) (kwargs : List (String × Json))
    (body : Json)
    (htask : taskSupported self.task = false)
    (hpost : post 0 (requestPayload self prompt kwargs) = HttpOutcome.response body)
    (hnoerr : pyContains body "error" = Except.ok false) :
    call self post prompt stop kwargs =
      Except.error (PyError.valueError (invalidTaskMsg self.task))
    ∧ (pyStrOfOptStr self.task).data <:+: (invalidTaskMsg self.task).data
    ∧ (∀ t ∈ VALID_TASKS, t.data <:+: (invalidTaskMsg self.task).data)
    ∧ (∀ post2 e, post2 0 (requestPayload self prompt kwargs) = HttpOutcome.transportError e →
        call self post2 prompt stop kwargs =
          Except.error (PyError.valueError (transportMsgPre ++ e))) := by
  refine ⟨?_, ?_, ?_, fun post2 e h => call_eq_transport _ _ _ _ _ _ h⟩
  · rw [call_eq_handle _ _ _ _ _ _ hpost]
    unfold handleBody
    rw [hnoerr, extract_invalid _ _ _ htask]
  · rw [invalidTaskMsg_data]
    exact ⟨invalidMsgPre.data,
      (", currently only ").data ++ validTasksRepr.data ++ (" are supported").data,
      by simp [List.append_assoc]⟩
  · intro t ht
    have hR : validTasksRepr.data <:+: (invalidTaskMsg self.task).data := by
      rw [invalidTaskMsg_data]
      exact List.infix_append _ _ _
    have h1 : t.data <:+: validTasksRepr.data := by
      fin_cases ht <;> exact infix_of_firstOccurIdx_isSome _ _ (by decide)
    exact h1.trans hR

/-- C4 witness: task "bogus" with an error-free response (here the empty
array, which extraction could not even index) fails with the invalid-task
message. -/
theorem C4_invalid_task_witness :
    call (HuggingFaceEndpoint.mk "u" (some "bogus") none none)
      (fun _ _ => HttpOutcome.response (Json.arr [])) "p" none [] =
      Except.error (PyError.valueError (invalidTaskMsg (some "bogus"))) :=
  (C4_invalid_task (HuggingFaceEndpoint.mk "u" (some "bogus") none none)
    (fun _ _ => HttpOutcome.response (Json.arr [])) "p" none [] (Json.arr [])
    (by decide) rfl rfl).1

/-- C5 counterexample: with no token supplied and an empty environment,
construction succeeds instead of failing with a ConfigurationError — the
`@root_validator()` decorator on `validate_environment` is commented out in
the source (line 52), so the validator is never invoked at construction. -/
theorem C5_construction_never_fails_cex :
    construct "https://example.test" none none none [] =
      Except.ok (HuggingFaceEndpoint.mk "https://example.test" none none none) := rfl

/-- C5 amended: construction never fails, whatever the token and
environment (the validator is disabled); the `validate_environment` method
itself, if invoked with no string token in the values dict and the
environment variable unset, does fail with the ConfigurationError, and does
so for every state of the `huggingface_hub` import and of the network
identity check — i.e. before any network call is attempted. -/
theorem C5_validator_disabled :
    (∀ (url : String) (task : Option String) (mkw : Option (List (String × Json)))
        (tok : Option String) (env : List (String × String)),
        isOkE (construct url task mkw tok env) = true)
    ∧ (∀ (values : List (String × Json)) (env : List (String × String))
        (hubInstalled : Bool) (whoami : String → Except String Unit),
        (∀ s, lookupKvs values "huggingfacehub_api_token" ≠ some (Json.str s)) →
        lookupEnv env "HUGGINGFACEHUB_API_TOKEN" = none →
        validate_environment values env hubInstalled whoami =
          Except.error (PyError.configurationError
            "Did not find huggingfacehub_api_token, please add an environment variable HUGGINGFACEHUB_API_TOKEN which contains it, or pass huggingfacehub_api_token as a named parameter.")) := by
  constructor
  · intro url task mkw tok env; rfl
  · intro values env hub whoami hv he
    unfold validate_environment get_from_dict_or_env
    cases hlv : lookupKvs values "huggingfacehub_api_token" with
    | none => rw [he]; rfl
    | some j =>
      cases j with
      | str s => exact absurd hlv (hv s)
      | null => rw [he]; rfl
      | bool b => rw [he]; rfl
      | num n => rw [he]; rfl
      | arr xs => rw [he]; rfl
      | obj okvs => rw [he]; rfl

/-- C5 witness: a concrete construction with no token succeeds, and a
direct invocation of `validate_environment` on empty values and environment
fails with the ConfigurationError even though the network check would have
succeeded. -/
theorem C5_validator_disabled_witness :
    isOkE (construct "u" none none none []) = true
    ∧ validate_environment [] [] true (fun _ => Except.ok ()) =
        Except.error (PyError.configurationError
          "Did not find huggingfacehub_api_token, please add an environment variable HUGGINGFACEHUB_API_TOKEN which contains it, or pass huggingfacehub_api_token as a named parameter.") :=
  ⟨C5_validator_disabled.1 "u" none none none [],
   C5_validator_disabled.2 [] [] true (fun _ => Except.ok ())
     (fun _ h => Option.noConfusion h) rfl⟩

/-- C6: the parameters sent by `_call` are the merge of `model_kwargs` with
the per-call kwargs where per-call entries override same-named entries
(stated via lookup, for kwargs with unique keys as every Python dict has);
the posted body is exactly
`\x7b"inputs": prompt, "parameters": merged\x7d`; and the call result
depends on the transport only through its response to exactly that body. -/
theorem C6_payload_merge (self : HuggingFaceEndpoint) (prompt : String)
    (kwargs : List (String × Json)) (hk : (kwargs.map Prod.fst).Nodup) :
    (∀ k, lookupKvs (callParams self kwargs) k =
        match lookupKvs kwargs k with
        | some v => some v
        | none => lookupKvs (self.model_kwargs.getD []) k)
    ∧ requestPayload self prompt kwargs =
        Json.obj [("inputs", Json.str prompt), ("parameters", Json.obj (callParams self kwargs))]
    ∧ (∀ post post' stop,
        post 0 (requestPayload self prompt kwargs) = post' 0 (requestPayload self prompt kwargs) →
        call self post prompt stop kwargs = call self post' prompt stop kwargs) :=
  ⟨fun k => lookupKvs_dictMerge (self.model_kwargs.getD []) kwargs hk k, rfl,
   fun post post' stop h => call_post_congr self post post' prompt stop kwargs h⟩

/-- C6 witness: with model_kwargs `\x7ba: 1, b: 2\x7d` and per-call kwargs
`\x7bb: 9, c: 3\x7d`, the merged parameters map "b" to the per-call 9. -/
theorem C6_payload_merge_witness :
    lookupKvs (callParams (HuggingFaceEndpoint.mk "u" none
        (some [("a", Json.num 1), ("b", Json.num 2)]) none)
      [("b", Json.num 9), ("c", Json.num 3)]) "b" = some (Json.num 9) := by
  have h := (C6_payload_merge (HuggingFaceEndpoint.mk "u" none
    (some [("a", Json.num 1), ("b", Json.num 2)]) none) "p"
    [("b", Json.num 9), ("c", Json.num 3)] (by decide)).1 "b"
  exact h

/-- C7: a transport-level failure of the one POST makes `_call` fail with
the transport `ValueError` wrapping the underlying cause (the cause is an
infix of the message), and the call result depends only on attempt 0 of the
transport — exactly one POST is attempted and no retry is performed. -/
theorem C7_transport_failure (self : HuggingFaceEndpoint) (post : Nat → Json → HttpOutcome)
    (prompt : String) (stop : Option (List String)) (kwargs : List (String × Json))
    (e : String)
    (hpost : post 0 (requestPayload self prompt kwargs) = HttpOutcome.transportError e) :
    call self post prompt stop kwargs = Except.error (PyError.valueError (transportMsgPre ++ e))
    ∧ e.data <:+: (transportMsgPre ++ e).data
    ∧ (∀ post', (∀ b, post' 0 b = post 0 b) →
        call self post' prompt stop kwargs = call self post prompt stop kwargs) := by
  refine ⟨call_eq_transport _ _ _ _ _ _ hpost,
    ⟨transportMsgPre.data, [], by rw [List.append_nil]; rfl⟩, ?_⟩
  intro post' h
  exact call_post_congr self post' post prompt stop kwargs (h _)

/-- C7 witness: a connection-refused failure surfaces as the transport
`ValueError` with the cause in the message. -/
theorem C7_transport_failure_witness :
    call (HuggingFaceEndpoint.mk "u" (some "text-generation") none none)
      (fun _ _ => HttpOutcome.transportError "connection refused") "p" none [] =
      Except.error
        (PyError.valueError "Error raised by inference endpoint: connection refused") :=
  (C7_transport_failure (HuggingFaceEndpoint.mk "u" (some "text-generation") none none)
    (fun _ _ => HttpOutcome.transportError "connection refused") "p" none []
    "connection refused" rfl).1

/-- C8 counterexample: two distinct failure causes from the taxonomy — a
transport failure and an endpoint-reported error payload — are both raised
as errors of the same Python kind `ValueError`, so they are not
distinguishable by kind, contrary to the claim. -/
theorem C8_same_kind_cex :
    call (HuggingFaceEndpoint.mk "u" (some "text-generation") none none)
        (fun _ _ => HttpOutcome.transportError "timed out") "p" none [] =
      Except.error (PyError.valueError "Error raised by inference endpoint: timed out")
    ∧ call (HuggingFaceEndpoint.mk "u" (some "text-generation") none none)
        (fun _ _ => HttpOutcome.response (Json.obj [("error", Json.str "model not found")]))
        "p" none [] =
      Except.error (PyError.valueError "Error raised by inference API: model not found")
    ∧ PyError.kind (PyError.valueError "Error raised by inference endpoint: timed out") =
        PyError.kind (PyError.valueError "Error raised by inference API: model not found") :=
  ⟨rfl, rfl, rfl⟩

/-- C8 amended: every failure of `_call` from the spec's taxonomy —
transport failure, endpoint-reported error payload, unsupported task — is
raised as the single kind `ValueError`; the three causes are distinguishable
only by their message text, via mutually exclusive message heads. -/
theorem C8_value_error_messages (self : HuggingFaceEndpoint) (post : Nat → Json → HttpOutcome)
    (prompt : String) (stop : Option (List String)) (kwargs : List (String × Json)) :
    (∀ e, post 0 (requestPayload self prompt kwargs) = HttpOutcome.transportError e →
      ∃ m, call self post prompt stop kwargs = Except.error (PyError.valueError m)
        ∧ PyError.kind (PyError.valueError m) = "ValueError"
        ∧ transportMsgPre.data <+: m.data)
    ∧ (∀ kvs v, post 0 (requestPayload self prompt kwargs) = HttpOutcome.response (Json.obj kvs) →
        lookupKvs kvs "error" = some v →
      ∃ m, call self post prompt stop kwargs = Except.error (PyError.valueError m)
        ∧ PyError.kind (PyError.valueError m) = "ValueError"
        ∧ apiMsgPre.data <+: m.data)
    ∧ (∀ body, post 0 (requestPayload self prompt kwargs) = HttpOutcome.response body →
        pyContains body "error" = Except.ok false →
        taskSupported self.task = false →
      ∃ m, call self post prompt stop kwargs = Except.error (PyError.valueError m)
        ∧ PyError.kind (PyError.valueError m) = "ValueError"
        ∧ invalidMsgPre.data <+: m.data)
    ∧ (∀ m₁ m₂ : String, transportMsgPre.data <+: m₁.data → apiMsgPre.data <+: m₂.data → m₁ ≠ m₂)
    ∧ (∀ m₁ m₂ : String,
        transportMsgPre.data <+: m₁.data → invalidMsgPre.data <+: m₂.data → m₁ ≠ m₂)
    ∧ (∀ m₁ m₂ : String, apiMsgPre.data <+: m₁.data → invalidMsgPre.data <+: m₂.data → m₁ ≠ m₂) := by
  refine ⟨?_, ?_, ?_, ne_of_distinct_prefixes _ _ (by decide) (by decide),
    ne_of_distinct_prefixes _ _ (by decide) (by decide),
    ne_of_distinct_prefixes _ _ (by decide) (by decide)⟩
  · intro e he
    exact ⟨transportMsgPre ++ e, call_eq_transport _ _ _ _ _ _ he, rfl, List.prefix_append _ _⟩
  · intro kvs v h1 h2
    refine ⟨apiMsgPre ++ pyStr v, ?_, rfl, List.prefix_append _ _⟩
    rw [call_eq_handle _ _ _ _ _ _ h1]
    exact handleBody_error_payload _ _ _ _ _ h2
  · intro body h1 h2 h3
    refine ⟨invalidTaskMsg self.task, ?_, rfl, ?_⟩
    · rw [call_eq_handle _ _ _ _ _ _ h1]
      unfold handleBody
      rw [h2, extract_invalid _ _ _ h3]
    · rw [invalidTaskMsg_data]
      exact (((List.prefix_append _ _).trans (List.prefix_append _ _)).trans
        (List.prefix_append _ _)).trans (List.prefix_append _ _)

/-- C8 amended witness: the three failure paths at concrete inputs, each a
`ValueError` with its message head. -/
theorem C8_value_error_messages_witness :
    (∃ m, call (HuggingFaceEndpoint.mk "u" none none none)
        (fun _ _ => HttpOutcome.transportError "boom") "p" none [] =
        Except.error (PyError.valueError m)
        ∧ PyError.kind (PyError.valueError m) = "ValueError"
        ∧ transportMsgPre.data <+: m.data)
    ∧ (∃ m, call (HuggingFaceEndpoint.mk "u" none none none)
        (fun _ _ => HttpOutcome.response (Json.obj [("error", Json.str "x")])) "p" none [] =
        Except.error (PyError.valueError m)
        ∧ PyError.kind (PyError.valueError m) = "ValueError"
        ∧ apiMsgPre.data <+: m.data)
    ∧ (∃ m, call (HuggingFaceEndpoint.mk "u" none none none)
        (fun _ _ => HttpOutcome.response (Json.arr [])) "p" none [] =
        Except.error (PyError.valueError m)
        ∧ PyError.kind (PyError.valueError m) = "ValueError"
        ∧ invalidMsgPre.data <+: m.data) :=
  ⟨(C8_value_error_messages (HuggingFaceEndpoint.mk "u" none none none)
      (fun _ _ => HttpOutcome.transportError "boom") "p" none []).1 "boom" rfl,
   (C8_value_error_messages (HuggingFaceEndpoint.mk "u" none none none)
      (fun _ _ => HttpOutcome.response (Json.obj [("error", Json.str "x")])) "p" none []).2.1
      [("error", Json.str "x")] (Json.str "x") rfl rfl,
   (C8_value_error_messages (HuggingFaceEndpoint.mk "u" none none none)
      (fun _ _ => HttpOutcome.response (Json.arr [])) "p" none []).2.2.1
      (Json.arr []) rfl rfl (by decide)⟩

/-- C9: for task "text-generation", when the returned generated_text is no
longer than the prompt, the prefix-dropping slice is total and `_call`
returns the empty string (before stop handling) instead of failing. -/
theorem C9_short_generation_empty (self : HuggingFaceEndpoint) (post : Nat → Json → HttpOutcome)
    (prompt : String) (kwargs : List (String × Json))
    (kvs : List (String × Json)) (rest : List Json) (g : String)
    (htask : self.task = some "text-generation")
    (hpost : post 0 (requestPayload self prompt kwargs) =
      HttpOutcome.response (Json.arr (Json.obj kvs :: rest)))
    (hrest : rest.all Json.isObj = true)
    (hg : lookupKvs kvs "generated_text" = some (Json.str g))
    (hlen : g.length ≤ prompt.length) :
    call self post prompt none kwargs = Except.ok (Json.str "") := by
  have hall : (Json.obj kvs :: rest).all Json.isObj = true := by
    simp [Json.isObj, hrest]
  rw [call_eq_handle _ _ _ _ _ _ hpost,
    handleBody_extract _ _ _ _ _ (pyContains_arr_objs _ hall)
      (by rw [htask]; exact extract_textgen prompt kvs rest g hg)]
  have hdrop : g.data.drop prompt.length = [] := List.drop_eq_nil_of_le hlen
  rw [hdrop]
  rfl

/-- C9 witness: generated_text "hi" with prompt "hi there" yields the empty
string. -/
theorem C9_short_generation_empty_witness :
    call (HuggingFaceEndpoint.mk "u" (some "text-generation") none none)
      (fun _ _ => HttpOutcome.response (Json.arr [Json.obj [("generated_text", Json.str "hi")]]))
      "hi there" none [] = Except.ok (Json.str "") :=
  C9_short_generation_empty (HuggingFaceEndpoint.mk "u" (some "text-generation") none none)
    (fun _ _ => HttpOutcome.response (Json.arr [Json.obj [("generated_text", Json.str "hi")]]))
    "hi there" [] [("generated_text", Json.str "hi")] [] "hi" rfl rfl rfl rfl (by decide)

/-- C10: for every client instance, `_identifying_params` has exactly the
keys "endpoint_url", "task" and "model_kwargs" in that order, their values
are the corresponding fields with `model_kwargs` defaulting to the empty
mapping, and the result never depends on the API token. -/
theorem C10_identifying_params_spec (url : String) (task : Option String)
    (mkw : Option (List (String × Json))) (tok : Option String) :
    (identifying_params (HuggingFaceEndpoint.mk url task mkw tok)).map Prod.fst =
        ["endpoint_url", "task", "model_kwargs"]
    ∧ lookupKvs (identifying_params (HuggingFaceEndpoint.mk url task mkw tok)) "endpoint_url" =
        some (Json.str url)
    ∧ lookupKvs (identifying_params (HuggingFaceEndpoint.mk url task mkw tok)) "task" =
        some (match task with | none => Json.null | some t => Json.str t)
    ∧ lookupKvs (identifying_params (HuggingFaceEndpoint.mk url task mkw tok)) "model_kwargs" =
        some (Json.obj (mkw.getD []))
    ∧ (∀ tok', identifying_params (HuggingFaceEndpoint.mk url task mkw tok) =
        identifying_params (HuggingFaceEndpoint.mk url task mkw tok')) :=
  ⟨rfl, rfl, rfl, rfl, fun _ => rfl⟩

end HFEndpoint
